import Mathlib

/-!
Verification of the xmas-tree LED controller (the-louie/xmas-tree).

The repository ships three implementations of the same animation engine:
`src/index.js` and `src/python/index.js` (node.js, driving rpi-ws2801) and
`src/unnamed/part_000` (ESP32 C++ port).  This development shallowly embeds
the pattern/scheduler core of each and proves or refutes the specification
claims about it.

Modelling conventions:
* IEEE double / `float` arithmetic is idealised as exact rational arithmetic
  (every numeric literal in the source is a small decimal, exactly
  representable in `ℚ`).
* `Math.sin` / `sinf` is an abstract parameter `s : ℚ → ℚ`; theorems that
  need it assume only its true range property `-1 ≤ s x ≤ 1`.
* C `unsigned long` (32-bit on ESP32) arithmetic is `ℕ` with explicit
  `% 2^32`; the C `(int)` cast on a float is truncation toward zero.
* The LED buffer is a total map from pixel index to an RGB byte triple;
  the `uint8_t` conversion on store is an explicit `% 256`.
-/

namespace XmasTree

/-- An RGB triple as produced by the color generator; channels are integers
(the JS code produces `Math.floor` results that are not a priori in byte
range, so the channel type is `ℤ`). -/
structure RGB where
  r : ℤ
  g : ℤ
  b : ℤ
deriving DecidableEq, Repr

/-- One channel of `gradient` from `src/index.js` / `src/python/index.js`:
`Math.floor(Math.max((Math.sin(angle) * 0.5 + 0.5) * 255 * d, 255))`,
with the already-evaluated sine value `sv = Math.sin(f * i + ph)`. -/
def jsChannel (sv d : ℚ) : ℤ :=
  ⌊max ((sv * 0.5 + 0.5) * 255 * d) 255⌋

/-- `gradient(f1, f2, f3, ph1, ph2, ph3, i, dr, dg, db)` from
`src/index.js` / `src/python/index.js` (the two files are identical here),
with `Math.sin` abstracted as `s`. -/
def gradientJs (s : ℚ → ℚ) (f1 f2 f3 ph1 ph2 ph3 i dr dg db : ℚ) : RGB :=
  ⟨jsChannel (s (f1 * i + ph1)) dr,
   jsChannel (s (f2 * i + ph2)) dg,
   jsChannel (s (f3 * i + ph3)) db⟩

/-- C-style truncation toward zero of a rational: the `(int)` cast applied
to a `float` in `part_000`. -/
def truncInt (q : ℚ) : ℤ :=
  if 0 ≤ q then ⌊q⌋ else ⌈q⌉

/-- Arduino `constrain(x, lo, hi)`: `x` clamped to `[lo, hi]`. -/
def constrain (x lo hi : ℤ) : ℤ :=
  max lo (min hi x)

/-- One channel of `gradient` from `src/unnamed/part_000`:
`(uint8_t)constrain((int)((sinf(angle) * 0.5 + 0.5) * 255.0 * d), 0, 255)`,
with the already-evaluated sine value `sv`. -/
def cppChannel (sv d : ℚ) : ℤ :=
  constrain (truncInt ((sv * 0.5 + 0.5) * 255 * d)) 0 255

/-- `gradient(...)` from `src/unnamed/part_000` (lines 61-73), with `sinf`
abstracted as `s`. -/
def gradientCpp (s : ℚ → ℚ) (f1 f2 f3 ph1 ph2 ph3 i dr dg db : ℚ) : RGB :=
  ⟨cppChannel (s (f1 * i + ph1)) dr,
   cppChannel (s (f2 * i + ph2)) dg,
   cppChannel (s (f3 * i + ph3)) db⟩

/-- Modelled from the spec: one channel of the Color Generator contract,
`clamp_to_byte(floor((sin(fc * i + phc) * 0.5 + 0.5) * 255 * dc))` with a
two-sided clamp to the inclusive range [0, 255] (spec section 4.1). -/
def specChannel (sv d : ℚ) : ℤ :=
  max 0 (min 255 ⌊(sv * 0.5 + 0.5) * 255 * d⌋)

/-- Modelled from the spec: the Color Generator contract of spec section 4.1,
channel-wise `specChannel`. -/
def gradientSpec (s : ℚ → ℚ) (f1 f2 f3 ph1 ph2 ph3 i dr dg db : ℚ) : RGB :=
  ⟨specChannel (s (f1 * i + ph1)) dr,
   specChannel (s (f2 * i + ph2)) dg,
   specChannel (s (f3 * i + ph3)) db⟩

/-- Each channel of an `RGB` value lies in the byte range [0, 255]. -/
def inByteRange (c : RGB) : Prop :=
  0 ≤ c.r ∧ c.r ≤ 255 ∧ 0 ≤ c.g ∧ c.g ≤ 255 ∧ 0 ≤ c.b ∧ c.b ≤ 255

instance (c : RGB) : Decidable (inByteRange c) := by
  unfold inByteRange; infer_instance

/-- The pre-floor wave value is at most 255 whenever the sine value is in
[-1, 1] and the channel multiplier is 0 or 1. -/
lemma wave_le_255 (sv d : ℚ) (h2 : sv ≤ 1) (h1 : -1 ≤ sv)
    (hd : d = 0 ∨ d = 1) : (sv * 0.5 + 0.5) * 255 * d ≤ 255 := by
  rcases hd with hd | hd <;> subst hd <;> nlinarith

/-- The pre-floor wave value is nonnegative whenever the sine value is in
[-1, 1] and the channel multiplier is 0 or 1. -/
lemma wave_nonneg (sv d : ℚ) (h2 : sv ≤ 1) (h1 : -1 ≤ sv)
    (hd : d = 0 ∨ d = 1) : 0 ≤ (sv * 0.5 + 0.5) * 255 * d := by
  rcases hd with hd | hd <;> subst hd <;> nlinarith

/-- The JS channel is constantly 255 when the wave value is at most 255:
`Math.max(v, 255)` lifts the value to 255 and `Math.floor(255) = 255`. -/
lemma jsChannel_eq_255 (sv d : ℚ) (h2 : sv ≤ 1) (h1 : -1 ≤ sv)
    (hd : d = 0 ∨ d = 1) : jsChannel sv d = 255 := by
  unfold jsChannel
  rw [max_eq_right (wave_le_255 sv d h2 h1 hd)]
  exact_mod_cast Int.floor_intCast 255

/-- `constrain((int)v, 0, 255) = max 0 (min 255 ⌊v⌋)` for every rational `v`:
truncation and flooring agree on nonnegative values, and on negative values
both sides clamp to 0. -/
lemma cppChannel_eq_specChannel (sv d : ℚ) : cppChannel sv d = specChannel sv d := by
  unfold cppChannel specChannel constrain truncInt
  set v : ℚ := (sv * 0.5 + 0.5) * 255 * d with hv
  by_cases h : 0 ≤ v
  · rw [if_pos h]
  · rw [if_neg h]
    push_neg at h
    have hceil : ⌈v⌉ ≤ 0 := Int.ceil_le.mpr (by exact_mod_cast h.le)
    have hfloor : ⌊v⌋ ≤ 0 := (Int.floor_le_ceil v).trans hceil
    rw [min_eq_right (hceil.trans (by norm_num)),
        min_eq_right (hfloor.trans (by norm_num)),
        max_eq_left hceil, max_eq_left hfloor]

/-- `specChannel` always lands in the byte range. -/
lemma specChannel_mem (sv d : ℚ) : 0 ≤ specChannel sv d ∧ specChannel sv d ≤ 255 := by
  unfold specChannel
  constructor
  · exact le_max_left 0 _
  · exact max_le (by norm_num) (min_le_left 255 _)

/-! ## Pixel buffer and Pixel Sink (part_000 lines 86-121, spec section 6) -/

/-- `#define LEDCOUNT 100` (part_000 line 8; `LEDCOUNT = 100` in
`src/python/index.js`, `leds.connect(100)` in `src/index.js`). -/
def LEDCOUNT : ℕ := 100

/-- The LED buffer, pixel index to RGB byte triple.  `part_000` stores the
three bytes of pixel `i` at flat offsets `3*i .. 3*i+2` of `led_buffer`; the
per-pixel map carries the same information. -/
abbrev Buf := ℕ → ℕ × ℕ × ℕ

/-- `leds_setColor(int index, uint8_t r, uint8_t g, uint8_t b)` from
`part_000` lines 86-96: bounds-checked write of one pixel; out-of-range
indices return with the buffer untouched.  The `uint8_t` parameter
conversion is the explicit `% 256`.  The spec (section 6) gives the same
contract for the rpi-ws2801 collaborator's `setPixel`, so the JS patterns
are modelled over the same sink. -/
def leds_setColor (index : ℤ) (r g b : ℕ) (buf : Buf) : Buf :=
  if index < 0 ∨ (LEDCOUNT : ℤ) ≤ index then buf
  else fun k => if (k : ℤ) = index then (r % 256, g % 256, b % 256) else buf k

/-- `leds_setColor(int index, uint32_t color)` from `part_000` lines 98-104:
extracts R, G, B from a 24-bit `0xRRGGBB` value and delegates. -/
def leds_setColorU32 (index : ℤ) (color : ℕ) (buf : Buf) : Buf :=
  leds_setColor index (color / 2 ^ 16 % 256) (color / 2 ^ 8 % 256) (color % 256) buf

/-- Writes color `c j` to pixel `j` for `j = 0 .. n-1`: the shared shape of
the `for` loops of `leds_fill` (part_000 lines 106-110) and
`pattern_colorcycle_no_blue` (part_000 lines 144-151). -/
def writeRange (n : ℕ) (c : ℕ → ℕ × ℕ × ℕ) (buf : Buf) : Buf :=
  (List.range n).foldl
    (fun (acc : Buf) (j : ℕ) => leds_setColor (j : ℤ) (c j).1 (c j).2.1 (c j).2.2 acc) buf

/-- `leds_fill(uint8_t r, uint8_t g, uint8_t b)` from `part_000` lines
106-110 (`leds.fill` on the JS side): `leds_setColor(i, r, g, b)` for every
`i` in `0 .. LEDCOUNT-1`. -/
def leds_fill (r g b : ℕ) (buf : Buf) : Buf :=
  writeRange LEDCOUNT (fun _ => (r, g, b)) buf

/-- The byte triple stored for an `RGB` color (components converted to
`uint8_t` on store). -/
def rgbBytes (c : RGB) : ℕ × ℕ × ℕ :=
  (c.r.toNat, c.g.toNat, c.b.toNat)

/-! ## The two patterns, in both implementations -/

/-- `pattern_colorcycle_no_blue(unsigned long count)` from `part_000` lines
144-151: for each `j < LEDCOUNT`, write
`gradient(0.3, 0.3, 0.3, 0, 2, 3, (j + count) * 0.1, 1, 1, 0)` to pixel `j`
(the trailing `sleep_ms(100)` and `leds_update()` do not touch the buffer). -/
def pattern_colorcycle_no_blue (s : ℚ → ℚ) (count : ℕ) (buf : Buf) : Buf :=
  writeRange LEDCOUNT
    (fun j => rgbBytes
      (gradientCpp s 0.3 0.3 0.3 0 2 3 (((j : ℚ) + (count : ℚ)) * 0.1) 1 1 0)) buf

/-- `colorcycle_no_blue(count)` from `src/python/index.js` (and, up to the
undefined `channel.count` bound, `src/index.js`): same loop over the JS
`gradient`. -/
def colorcycle_no_blue_js (s : ℚ → ℚ) (count : ℕ) (buf : Buf) : Buf :=
  writeRange LEDCOUNT
    (fun j => rgbBytes
      (gradientJs s 0.3 0.3 0.3 0 2 3 (((j : ℚ) + (count : ℚ)) * 0.1) 1 1 0)) buf

/-- The gray `leds_setColor` calls issued by the blink loop of
`pattern_blink_random_slow` (part_000 lines 158-162): one write of
`(0xb4, 0xb4, 0xb4)` per iteration of `for (n = 0; n < num_blinks; n++)`,
where `num_blinks = random(0, 3)` and `idxs n = random(0, LEDCOUNT)` is the
n-th index draw.  A non-positive `num_blinks` runs the loop zero times. -/
def cppBlinkWrites (numBlinks : ℤ) (idxs : ℕ → ℤ) : List (ℤ × ℕ × ℕ × ℕ) :=
  (List.range numBlinks.toNat).map fun n => (idxs n, 0xb4, 0xb4, 0xb4)

/-- Applies a list of `(index, r, g, b)` writes to the buffer in order. -/
def applyWrites (ws : List (ℤ × ℕ × ℕ × ℕ)) (buf : Buf) : Buf :=
  ws.foldl (fun acc w => leds_setColor w.1 w.2.1 w.2.2.1 w.2.2.2 acc) buf

/-- `pattern_blink_random_slow(unsigned long count)` from `part_000` lines
153-171: fill orange `(0xFF, 0x19, 0x02)`, write `num_blinks` gray pixels at
the drawn indices, render, sleep, fill orange again, render, sleep.  Render
and sleep do not touch the buffer. -/
def pattern_blink_random_slow (numBlinks : ℤ) (idxs : ℕ → ℤ) (buf : Buf) : Buf :=
  leds_fill 0xFF 0x19 0x02
    (applyWrites (cppBlinkWrites numBlinks idxs) (leds_fill 0xFF 0x19 0x02 buf))

/-- The gray `leds.setColor` calls issued by the blink loop of
`blink_random_slow` in `src/index.js` / `src/python/index.js`:
`for (let n = 0; n <= 2; n++)` issues one write of the packed color
`0xb4b4b4` for each of `n = 0, 1, 2` — always exactly three writes. -/
def jsBlinkWrites (idxs : ℕ → ℤ) : List (ℤ × ℕ) :=
  (List.range 3).map fun n => (idxs n, 0xb4b4b4)

/-- `blink_random_slow(count)` from `src/python/index.js`: fill orange,
write the three gray pixels (packed-color writes), render, sleep, fill
orange again, render, sleep. -/
def blink_random_slow_js (idxs : ℕ → ℤ) (buf : Buf) : Buf :=
  leds_fill 0xFF 0x19 0x02
    ((jsBlinkWrites idxs).foldl (fun acc w => leds_setColorU32 w.1 w.2 acc)
      (leds_fill 0xFF 0x19 0x02 buf))

/-! ## Buffer lemmas -/

/-- In-range write: pixel `j` gets the bytes, every other pixel is kept. -/
lemma leds_setColor_in_range (j : ℕ) (hj : j < LEDCOUNT) (r g b : ℕ) (buf : Buf) :
    leds_setColor (j : ℤ) r g b buf =
      fun (k : ℕ) => if (k : ℤ) = (j : ℤ) then (r % 256, g % 256, b % 256) else buf k := by
  unfold leds_setColor
  rw [if_neg]
  push_neg
  constructor
  · exact_mod_cast Nat.zero_le j
  · exact_mod_cast hj

/-- Evaluating `writeRange n c` at a pixel: written pixels hold their color
(as stored bytes), the rest hold the previous buffer contents. -/
lemma writeRange_get (c : ℕ → ℕ × ℕ × ℕ) :
    ∀ (n : ℕ), n ≤ LEDCOUNT → ∀ (buf : Buf) (k : ℕ),
      writeRange n c buf k =
        if k < n then ((c k).1 % 256, (c k).2.1 % 256, (c k).2.2 % 256) else buf k := by
  intro n
  induction n with
  | zero =>
    intro _ buf k
    simp [writeRange]
  | succ m ih =>
    intro h buf k
    have hm : m ≤ LEDCOUNT := Nat.le_of_succ_le h
    have hmlt : m < LEDCOUNT := h
    have step : writeRange (m + 1) c buf =
        leds_setColor (m : ℤ) (c m).1 (c m).2.1 (c m).2.2 (writeRange m c buf) := by
      unfold writeRange
      rw [List.range_succ, List.foldl_append, List.foldl_cons, List.foldl_nil]
    rw [step, leds_setColor_in_range m hmlt]
    by_cases hk : k = m
    · subst hk
      simp
    · have hcast : ¬ ((k : ℤ) = (m : ℤ)) := by exact_mod_cast hk
      have hiff : k < m + 1 ↔ k < m := by omega
      simp only [if_neg hcast, ih hm buf k, hiff]

/-- `leds_fill` paints every pixel below `LEDCOUNT` with the given bytes. -/
lemma leds_fill_get (r g b : ℕ) (buf : Buf) (k : ℕ) (hk : k < LEDCOUNT) :
    leds_fill r g b buf k = (r % 256, g % 256, b % 256) := by
  unfold leds_fill
  rw [writeRange_get _ LEDCOUNT le_rfl buf k, if_pos hk]

/-! ## Top-level evaluation of src/index.js (identifier resolution model)

A small call-by-value model of the top level of a node.js script, precise
about the one thing the claim is about: resolving an identifier that is
bound in no enclosing scope raises a `ReferenceError` and aborts the run.
Host and library values (the `require` result, `Math`, call results, member
values) are opaque; arrow functions and async functions are opaque closures
whose bodies are not entered at the top level. -/

/-- Runtime values of the top-level model (all host values opaque). -/
inductive JsVal where
  | undef : JsVal
  | num : ℚ → JsVal
  | str : String → JsVal
  | obj : String → JsVal
  | closure : String → JsVal
deriving DecidableEq, Repr

/-- The only runtime error the model tracks: an unresolvable identifier. -/
inductive JsErr where
  | referenceError : String → JsErr
deriving DecidableEq, Repr

/-- Expressions occurring at the top level of `src/index.js`.  Calls in that
file have zero or one argument, so the model has `call0`/`call1`; `mul` is
the `*` in `Math.random() * modes.length`; `arr2` is the two-element array
literal `[colorcycle_no_blue, blink_random_slow]`. -/
inductive JsExpr where
  | lit : JsVal → JsExpr
  | ident : String → JsExpr
  | member : JsExpr → String → JsExpr
  | call0 : JsExpr → JsExpr
  | call1 : JsExpr → JsExpr → JsExpr
  | mul : JsExpr → JsExpr → JsExpr
  | arr2 : JsExpr → JsExpr → JsExpr
  | lambda : String → JsExpr
deriving DecidableEq, Repr

/-- A top-level statement: a declaration with initialiser (`var`, `let`,
`const` — the declared name enters scope after the initialiser evaluates)
or an expression statement. -/
inductive JsStmt where
  | declStmt : String → JsExpr → JsStmt
  | exprStmt : JsExpr → JsStmt
deriving DecidableEq, Repr

/-- Identifier lookup: the value if bound, `ReferenceError` otherwise. -/
def lookupVar (env : List (String × JsVal)) (x : String) : Except JsErr JsVal :=
  match env.find? (fun p => p.1 = x) with
  | some p => Except.ok p.2
  | none => Except.error (JsErr.referenceError x)

/-- Expression evaluation.  Evaluation order follows JS (callee before
argument, left operand before right); the values produced by host calls,
member reads and arithmetic are opaque, which is sound for the claim: only
identifier resolution can fail in this model, exactly as only identifier
resolution fails on the real run. -/
def evalExpr (env : List (String × JsVal)) : JsExpr → Except JsErr JsVal
  | JsExpr.lit v => Except.ok v
  | JsExpr.ident x => lookupVar env x
  | JsExpr.member e _ =>
      (evalExpr env e).map fun _ => JsVal.obj "memberValue"
  | JsExpr.call0 f =>
      (evalExpr env f).map fun _ => JsVal.obj "callResult"
  | JsExpr.call1 f a =>
      (evalExpr env f).bind fun _ =>
        (evalExpr env a).map fun _ => JsVal.obj "callResult"
  | JsExpr.mul a b =>
      (evalExpr env a).bind fun _ =>
        (evalExpr env b).map fun _ => JsVal.obj "numValue"
  | JsExpr.arr2 a b =>
      (evalExpr env a).bind fun _ =>
        (evalExpr env b).map fun _ => JsVal.obj "arrayValue"
  | JsExpr.lambda t => Except.ok (JsVal.closure t)

/-- Statement-sequence evaluation: statements run in order; the first
expression error aborts the whole run (an uncaught exception at the top
level of a node.js script), so later statements never execute. -/
def execProgram (env : List (String × JsVal)) :
    List JsStmt → Except JsErr (List (String × JsVal))
  | [] => Except.ok env
  | JsStmt.declStmt x e :: rest =>
      (evalExpr env e).bind fun v => execProgram ((x, v) :: env) rest
  | JsStmt.exprStmt e :: rest =>
      (evalExpr env e).bind fun _ => execProgram env rest

/-- The scope in force when the top level of `src/index.js` starts running:
node globals (`require`, `Math`), the hoisted function declaration
`function log()` and the hoisted (still undefined) `var leds`.  No binding
for `channel` exists anywhere in the file. -/
def indexJsGlobalEnv : List (String × JsVal) :=
  [ ("require", JsVal.obj "requireFn"),
    ("Math", JsVal.obj "MathObj"),
    ("log", JsVal.closure "log"),
    ("leds", JsVal.undef) ]

/-- The top-level statements of `src/index.js`, in source order.  Function
bodies are opaque closures (none is entered before the run aborts); the two
template-literal `log` calls are modelled by the member/identifier
subexpression they interpolate. -/
def indexJsProgram : List JsStmt :=
  [ JsStmt.declStmt "leds"
      (JsExpr.call1 (JsExpr.ident "require") (JsExpr.lit (JsVal.str "rpi-ws2801"))),
    JsStmt.exprStmt
      (JsExpr.call1 (JsExpr.member (JsExpr.ident "leds") "connect")
        (JsExpr.lit (JsVal.num 100))),
    JsStmt.declStmt "rgbBlackAll"
      (JsExpr.call1
        (JsExpr.member (JsExpr.member (JsExpr.ident "channel") "array") "map")
        (JsExpr.lambda "arrowZero")),
    JsStmt.declStmt "sleep" (JsExpr.lambda "sleep"),
    JsStmt.declStmt "gradient" (JsExpr.lambda "gradient"),
    JsStmt.declStmt "colorcycle_no_blue" (JsExpr.lambda "colorcycle_no_blue"),
    JsStmt.declStmt "blink_random_slow" (JsExpr.lambda "blink_random_slow"),
    JsStmt.declStmt "modes"
      (JsExpr.arr2 (JsExpr.ident "colorcycle_no_blue") (JsExpr.ident "blink_random_slow")),
    JsStmt.declStmt "activeMode"
      (JsExpr.call1 (JsExpr.member (JsExpr.ident "Math") "floor")
        (JsExpr.mul (JsExpr.call0 (JsExpr.member (JsExpr.ident "Math") "random"))
          (JsExpr.member (JsExpr.ident "modes") "length"))),
    JsStmt.exprStmt
      (JsExpr.call1 (JsExpr.ident "log") (JsExpr.member (JsExpr.ident "modes") "length")),
    JsStmt.exprStmt
      (JsExpr.call1 (JsExpr.ident "log") (JsExpr.ident "activeMode")),
    JsStmt.declStmt "main" (JsExpr.lambda "main"),
    JsStmt.exprStmt (JsExpr.call0 (JsExpr.ident "main")) ]

/-- Running the top level of `src/index.js`. -/
def runIndexJs : Except JsErr (List (String × JsVal)) :=
  execProgram indexJsGlobalEnv indexJsProgram

/-! ## Mode scheduler (part_000 `setup`/`loop`, src/python/index.js `main`) -/

/-- `pattern_count = sizeof(patterns) / sizeof(patterns[0])` (part_000 line
30); the `patterns` array has the two entries `pattern_colorcycle_no_blue`
and `pattern_blink_random_slow`. -/
def pattern_count : ℕ := 2

/-- `modes.length` in the JS files: `modes = [colorcycle_no_blue,
blink_random_slow]`. -/
def jsModesLength : ℕ := 2

/-- `MODE_SWITCH_INTERVAL = 30000` (part_000 line 34; the literal `30000`
in the JS `main`). -/
def MODE_SWITCH_INTERVAL : ℕ := 30000

/-- `2^32`: the modulus of ESP32 `unsigned long` arithmetic. -/
def U32 : ℕ := 4294967296

/-- The scheduler state of part_000: `active_mode`, `mode_start_time` and
`pattern_count_var` (the frame counter passed to the pattern). -/
structure SchedState where
  active_mode : ℕ
  mode_start_time : ℕ
  counter : ℕ
deriving DecidableEq, Repr

/-- `(unsigned long)(current_time - mode_start_time)`: 32-bit unsigned
subtraction. -/
def elapsedU32 (now start : ℕ) : ℕ :=
  (now % U32 + U32 - start % U32) % U32

/-- One iteration of `loop()` (part_000 lines 173-185), scheduler state
only — the pattern call mutates only the LED buffer.  `randDraw` is the
value returned by `random(0, pattern_count)` if a switch happens;
`currentTime` is the `millis()` reading of this iteration. -/
def loopStep (randDraw : ℕ) (currentTime : ℕ) (st : SchedState) : SchedState :=
  let counter' := (st.counter + 1) % U32
  if MODE_SWITCH_INTERVAL < elapsedU32 currentTime st.mode_start_time then
    { active_mode := randDraw, mode_start_time := currentTime % U32, counter := counter' }
  else
    { st with counter := counter' }

/-- The scheduler state after `setup()` (part_000 lines 136-141):
`active_mode = random(0, pattern_count)`, `mode_start_time = millis()`,
counter 0. -/
def setupState (draw t0 : ℕ) : SchedState :=
  ⟨draw, t0 % U32, 0⟩

/-- The scheduler state after `n` iterations of `loop()`, with the random
and clock readings of iteration `k` supplied by the oracles at `k`. -/
def runLoop (randDraws clock : ℕ → ℕ) (st0 : SchedState) : ℕ → SchedState
  | 0 => st0
  | n + 1 => loopStep (randDraws n) (clock n) (runLoop randDraws clock st0 n)

/-- The scheduler state of `src/python/index.js` (`src/index.js` is
identical): `activeMode` is the raw `Math.floor` result, so `ℤ`. -/
structure JsSchedState where
  activeMode : ℤ
  startTime : ℕ
  count : ℕ
deriving DecidableEq, Repr

/-- `Math.floor(Math.random() * modes.length)`, with `q` the
`Math.random()` draw. -/
def jsPickMode (q : ℚ) : ℤ :=
  ⌊q * (jsModesLength : ℚ)⌋

/-- One iteration of the `while (true)` body of `main()` in
`src/python/index.js`: run the pattern (buffer only), `count = count + 1`
(the modulo is commented out in the source), then the switch check.  `t1`
and `t2` are the two successive `new Date().getTime()` readings of the
switch branch and `q` its `Math.random()` draw. -/
def jsMainStep (q : ℚ) (t1 t2 : ℕ) (st : JsSchedState) : JsSchedState :=
  let count' := st.count + 1
  if 30000 < (t1 : ℤ) - (st.startTime : ℤ) then
    { activeMode := jsPickMode q, startTime := t2, count := count' }
  else
    { st with count := count' }

/-- The JS scheduler state entering `main()`: `activeMode` picked at the
top level from the draw `q0`, `startTime` the first `getTime()` reading,
`count = 0`. -/
def jsInitState (q0 : ℚ) (t0 : ℕ) : JsSchedState :=
  ⟨jsPickMode q0, t0, 0⟩

/-- The JS scheduler state after `n` iterations of the `main()` loop. -/
def jsRunMain (qs : ℕ → ℚ) (t1s t2s : ℕ → ℕ) (st0 : JsSchedState) : ℕ → JsSchedState
  | 0 => st0
  | n + 1 => jsMainStep (qs n) (t1s n) (t2s n) (jsRunMain qs t1s t2s st0 n)

/-! ## Scheduler lemmas -/

/-- Without 32-bit wraparound, the unsigned elapsed time is the plain
difference. -/
lemma elapsedU32_eq (now start : ℕ) (h1 : start ≤ now) (h2 : now < U32) :
    elapsedU32 now start = now - start := by
  have hs : start < U32 := lt_of_le_of_lt h1 h2
  unfold elapsedU32
  rw [Nat.mod_eq_of_lt h2, Nat.mod_eq_of_lt hs]
  unfold U32 at *
  omega

/-- `Math.floor(Math.random() * modes.length)` is a valid mode index for
every `Math.random()` value in `[0, 1)`. -/
lemma jsPickMode_valid (q : ℚ) (h0 : 0 ≤ q) (h1 : q < 1) :
    0 ≤ jsPickMode q ∧ jsPickMode q < (jsModesLength : ℤ) := by
  unfold jsPickMode jsModesLength
  constructor
  · exact Int.floor_nonneg.mpr (by positivity)
  · apply Int.floor_lt.mpr
    push_cast
    nlinarith

/-! ## Claim theorems -/

/-- C1: the claim states that each channel returned by `gradient` equals
`clamp_to_byte(floor((sin(fc * i + phc) * 0.5 + 0.5) * 255 * dc))`.  The JS
implementations violate it: `Math.max(v, 255)` (where a `min` was needed)
lifts every channel to 255.  At the input
`gradient(0.3, 0.3, 0.3, 0, 2, 3, 0, 1, 1, 0)` — with a sine function that,
like the true sine, vanishes at 0 — the JS code returns `(255, 255, 255)`
while the claimed formula gives `(127, 127, 0)`; the C++ port in `part_000`
returns exactly the claimed formula value. -/
theorem claim1_gradient_formula_divergence :
    gradientJs (fun _ => 0) 0.3 0.3 0.3 0 2 3 0 1 1 0 = ⟨255, 255, 255⟩ ∧
    gradientSpec (fun _ => 0) 0.3 0.3 0.3 0 2 3 0 1 1 0 = ⟨127, 127, 0⟩ ∧
    gradientCpp (fun _ => 0) 0.3 0.3 0.3 0 2 3 0 1 1 0 =
      gradientSpec (fun _ => 0) 0.3 0.3 0.3 0 2 3 0 1 1 0 := by
  refine ⟨?_, ?_, ?_⟩
  · norm_num [gradientJs, jsChannel]
  · norm_num [gradientSpec, specChannel]
  · norm_num [gradientCpp, gradientSpec, cppChannel, specChannel, constrain, truncInt]

/-- C2: evaluating the top level of `src/index.js` fails on every run with
a `ReferenceError` for the undefined identifier `channel` (first hit at
`channel.array`, line 6), before the trailing `main()` statement — and with
it the main loop and every pattern — can execute. -/
theorem claim2_indexjs_startup_reference_error :
    runIndexJs = Except.error (JsErr.referenceError "channel") := by
  rfl

/-- C3: the claim states that the color-cycle pattern always writes blue
channel 0.  This holds for `part_000` (`db = 0` forces the C++ channel to
`constrain(0, 0, 255) = 0`), but the JS implementations write blue 255 for
every pixel, because `Math.max(..., 255)` lifts the disabled channel to
255.  Shown here at pixel 0, frame counter 0, starting from an all-black
buffer. -/
theorem claim3_colorcycle_blue_divergence :
    ((colorcycle_no_blue_js (fun _ => 0) 0 (fun _ => (0, 0, 0))) 0).2.2 = 255 ∧
    ((pattern_colorcycle_no_blue (fun _ => 0) 0 (fun _ => (0, 0, 0))) 0).2.2 = 0 := by
  constructor
  · unfold colorcycle_no_blue_js
    rw [writeRange_get _ LEDCOUNT le_rfl]
    norm_num [LEDCOUNT, rgbBytes, gradientJs, jsChannel]
    decide
  · unfold pattern_colorcycle_no_blue
    rw [writeRange_get _ LEDCOUNT le_rfl]
    norm_num [LEDCOUNT, rgbBytes, gradientCpp, cppChannel, constrain, truncInt,
      Int.toNat_ofNat]

/-- C4 counterexample: the claim states that every invocation of the
random-blink pattern performs at most 2 gray writes.  The blink loop of
`blink_random_slow` in `src/index.js` / `src/python/index.js` runs
`for (let n = 0; n <= 2; n++)` and therefore performs exactly 3 gray
writes on every invocation, here with all random index draws equal to 0. -/
theorem claim4_counterexample :
    (jsBlinkWrites (fun _ => 0)).length = 3 ∧
    ¬ ((jsBlinkWrites (fun _ => 0)).length ≤ 2) := by
  decide

/-- C4 amended: in `part_000`, the number of gray writes equals the
`random(0, 3)` draw, hence lies in {0, 1, 2} and is never more than 2, and
a duplicate index write simply overwrites the same pixel; the JS
implementation instead performs exactly 3 gray writes per invocation. -/
theorem claim4_blink_writes_amended (numBlinks : ℤ) (idxs : ℕ → ℤ)
    (h0 : 0 ≤ numBlinks) (h3 : numBlinks < 3) :
    (cppBlinkWrites numBlinks idxs).length = numBlinks.toNat ∧
    (cppBlinkWrites numBlinks idxs).length ≤ 2 ∧
    (∀ (idxs' : ℕ → ℤ), (jsBlinkWrites idxs').length = 3) ∧
    (∀ (i : ℤ) (r g b : ℕ) (buf : Buf),
      leds_setColor i r g b (leds_setColor i r g b buf) = leds_setColor i r g b buf) := by
  refine ⟨?_, ?_, ?_, ?_⟩
  · simp [cppBlinkWrites]
  · simp only [cppBlinkWrites, List.length_map, List.length_range]
    omega
  · intro idxs'
    simp [jsBlinkWrites]
  · intro i r g b buf
    by_cases h : i < 0 ∨ (LEDCOUNT : ℤ) ≤ i
    · simp [leds_setColor, h]
    · simp only [leds_setColor, if_neg h]
      funext k
      by_cases hk : (k : ℤ) = i <;> simp [hk]

/-- C4 witness: with `random(0, 3)` drawing 2, the hypotheses hold and the
gray write count is at most 2. -/
theorem claim4_witness :
    (0 : ℤ) ≤ 2 ∧ (2 : ℤ) < 3 ∧ (cppBlinkWrites 2 (fun _ => 7)).length ≤ 2 :=
  ⟨by decide, by decide,
    (claim4_blink_writes_amended 2 (fun _ => 7) (by decide) (by decide)).2.1⟩

/-- C5: with the sine abstraction in its true range `[-1, 1]` and channel
multipliers in {0, 1}, every channel of both implementations' `gradient`
output lies in `[0, 255]` — the JS one because every channel is exactly
255, the C++ one because `constrain` is a genuine two-sided clamp. -/
theorem claim5_gradient_output_in_byte_range (s : ℚ → ℚ)
    (f1 f2 f3 ph1 ph2 ph3 i dr dg db : ℚ)
    (hs : ∀ x, -1 ≤ s x ∧ s x ≤ 1)
    (hdr : dr = 0 ∨ dr = 1) (hdg : dg = 0 ∨ dg = 1) (hdb : db = 0 ∨ db = 1) :
    inByteRange (gradientJs s f1 f2 f3 ph1 ph2 ph3 i dr dg db) ∧
    inByteRange (gradientCpp s f1 f2 f3 ph1 ph2 ph3 i dr dg db) := by
  constructor
  · unfold gradientJs inByteRange
    rw [jsChannel_eq_255 _ _ (hs _).2 (hs _).1 hdr,
        jsChannel_eq_255 _ _ (hs _).2 (hs _).1 hdg,
        jsChannel_eq_255 _ _ (hs _).2 (hs _).1 hdb]
    norm_num
  · unfold gradientCpp inByteRange
    rw [cppChannel_eq_specChannel, cppChannel_eq_specChannel, cppChannel_eq_specChannel]
    exact ⟨(specChannel_mem _ _).1, (specChannel_mem _ _).2,
           (specChannel_mem _ _).1, (specChannel_mem _ _).2,
           (specChannel_mem _ _).1, (specChannel_mem _ _).2⟩

/-- C5 witness: the range property at the zero sine function and the
color-cycle call site's parameters. -/
theorem claim5_witness :
    (∀ x : ℚ, -1 ≤ (fun _ : ℚ => (0 : ℚ)) x ∧ (fun _ : ℚ => (0 : ℚ)) x ≤ 1) ∧
    inByteRange (gradientJs (fun _ => 0) 0.3 0.3 0.3 0 2 3 0 1 1 0) ∧
    inByteRange (gradientCpp (fun _ => 0) 0.3 0.3 0.3 0 2 3 0 1 1 0) := by
  have hs : ∀ x : ℚ, -1 ≤ (fun _ : ℚ => (0 : ℚ)) x ∧ (fun _ : ℚ => (0 : ℚ)) x ≤ 1 :=
    fun x => by norm_num
  have h := claim5_gradient_output_in_byte_range (fun _ => 0) 0.3 0.3 0.3 0 2 3 0 1 1 0
    hs (Or.inr rfl) (Or.inr rfl) (Or.inl rfl)
  exact ⟨hs, h.1, h.2⟩

/-- C6: after a completed invocation of the random-blink pattern, in either
implementation, every pixel holds the base orange color `(255, 25, 2)` —
the final `leds_fill(0xFF, 0x19, 0x02)` overwrites every pixel, whatever
the random draws wrote in the blink step. -/
theorem claim6_blink_final_buffer_all_orange (numBlinks : ℤ) (idxs : ℕ → ℤ)
    (buf : Buf) (k : ℕ) (hk : k < LEDCOUNT) :
    pattern_blink_random_slow numBlinks idxs buf k = (255, 25, 2) ∧
    blink_random_slow_js idxs buf k = (255, 25, 2) := by
  constructor
  · unfold pattern_blink_random_slow
    rw [leds_fill_get _ _ _ _ k hk]
  · unfold blink_random_slow_js
    rw [leds_fill_get _ _ _ _ k hk]

/-- C6 witness: pixel 0 after an invocation with two blink draws landing on
pixel 5, starting from an all-black buffer. -/
theorem claim6_witness :
    0 < LEDCOUNT ∧
    pattern_blink_random_slow 2 (fun _ => 5) (fun _ => (0, 0, 0)) 0 = (255, 25, 2) ∧
    blink_random_slow_js (fun _ => 5) (fun _ => (0, 0, 0)) 0 = (255, 25, 2) := by
  have h := claim6_blink_final_buffer_all_orange 2 (fun _ => 5) (fun _ => (0, 0, 0)) 0
    (by decide)
  exact ⟨by decide, h.1, h.2⟩

/-- C7: at every observable point — after initialisation and after each
loop iteration — the active mode index is a valid index into the pattern
set, in both implementations, provided every random draw respects its
contract (`random(0, pattern_count) < pattern_count`;
`Math.random() ∈ [0, 1)`). -/
theorem claim7_active_mode_always_valid :
    (∀ (randDraws clock : ℕ → ℕ) (initDraw t0 : ℕ),
      (∀ k, randDraws k < pattern_count) → initDraw < pattern_count →
      ∀ n, (runLoop randDraws clock (setupState initDraw t0) n).active_mode < pattern_count) ∧
    (∀ (qs : ℕ → ℚ) (t1s t2s : ℕ → ℕ) (q0 : ℚ) (t0 : ℕ),
      (∀ k, 0 ≤ qs k ∧ qs k < 1) → 0 ≤ q0 → q0 < 1 →
      ∀ n, 0 ≤ (jsRunMain qs t1s t2s (jsInitState q0 t0) n).activeMode ∧
        (jsRunMain qs t1s t2s (jsInitState q0 t0) n).activeMode < (jsModesLength : ℤ)) := by
  constructor
  · intro randDraws clock initDraw t0 hdraws hinit n
    induction n with
    | zero => exact hinit
    | succ m ih =>
      simp only [runLoop, loopStep]
      split
      · exact hdraws m
      · exact ih
  · intro qs t1s t2s q0 t0 hqs hq0 hq1 n
    induction n with
    | zero => exact jsPickMode_valid q0 hq0 hq1
    | succ m ih =>
      simp only [jsRunMain, jsMainStep]
      split
      · exact jsPickMode_valid (qs m) (hqs m).1 (hqs m).2
      · exact ih

/-- C7 witness: three iterations with all draws 0 and a clock that forces a
switch on every iteration. -/
theorem claim7_witness :
    (∀ k : ℕ, (fun _ : ℕ => 0) k < pattern_count) ∧
    (runLoop (fun _ => 0) (fun _ => 40000) (setupState 0 0) 3).active_mode < pattern_count ∧
    (0 : ℚ) ≤ 0 ∧ (0 : ℚ) < 1 ∧
    0 ≤ (jsRunMain (fun _ => 0) (fun _ => 40000) (fun _ => 40000) (jsInitState 0 0) 3).activeMode := by
  have hd : ∀ k : ℕ, (fun _ : ℕ => 0) k < pattern_count := fun _ => Nat.zero_lt_two
  have hq : ∀ k : ℕ, (0 : ℚ) ≤ (fun _ : ℕ => (0 : ℚ)) k ∧ (fun _ : ℕ => (0 : ℚ)) k < 1 :=
    fun _ => ⟨le_refl 0, zero_lt_one⟩
  have h := claim7_active_mode_always_valid
  exact ⟨hd, h.1 (fun _ => 0) (fun _ => 40000) 0 0 hd (by decide) 3,
    by norm_num, by norm_num,
    (h.2 (fun _ => 0) (fun _ => 40000) (fun _ => 40000) 0 0 hq (by norm_num) (by norm_num) 3).1⟩

/-- C8: in each scheduler iteration, after the pattern invocation, a mode
switch happens exactly when the elapsed time since mode-start-time exceeds
30000; on a switch the new mode is the fresh random draw (the current mode
is not excluded) and mode-start-time is reset to the current clock reading;
otherwise mode and mode-start-time are unchanged (only the frame counter
advances).  Stated for `part_000`'s `loop()` (under no-wraparound
hypotheses for the 32-bit clock) and for the JS `main()` loop, whose
switch branch re-reads the clock (`t2`) when resetting. -/
theorem claim8_mode_switch_threshold :
    (∀ (draw now : ℕ) (st : SchedState), st.mode_start_time ≤ now → now < U32 →
      (MODE_SWITCH_INTERVAL < now - st.mode_start_time →
        loopStep draw now st =
          ⟨draw, now, (st.counter + 1) % U32⟩) ∧
      (now - st.mode_start_time ≤ MODE_SWITCH_INTERVAL →
        loopStep draw now st = { st with counter := (st.counter + 1) % U32 })) ∧
    (∀ (q : ℚ) (t1 t2 : ℕ) (st : JsSchedState),
      (30000 < (t1 : ℤ) - (st.startTime : ℤ) →
        jsMainStep q t1 t2 st = ⟨jsPickMode q, t2, st.count + 1⟩) ∧
      ((t1 : ℤ) - (st.startTime : ℤ) ≤ 30000 →
        jsMainStep q t1 t2 st = { st with count := st.count + 1 })) := by
  constructor
  · intro draw now st hle hlt
    have helapsed : elapsedU32 now st.mode_start_time = now - st.mode_start_time :=
      elapsedU32_eq now st.mode_start_time hle hlt
    constructor
    · intro hswitch
      simp only [loopStep, helapsed, if_pos hswitch, Nat.mod_eq_of_lt hlt]
    · intro hstay
      simp only [loopStep, helapsed, if_neg (not_lt.mpr hstay)]
  · intro q t1 t2 st
    constructor
    · intro hswitch
      simp only [jsMainStep, if_pos hswitch]
    · intro hstay
      simp only [jsMainStep, if_neg (not_lt.mpr hstay)]

/-- C8 witness: a draw that re-selects the current mode 30001 ms after the
mode start still counts as a switch (repetition permitted), and an elapsed
time of exactly 30000 does not switch. -/
theorem claim8_witness :
    (⟨1, 0, 5⟩ : SchedState).mode_start_time ≤ 30001 ∧ 30001 < U32 ∧
    MODE_SWITCH_INTERVAL < 30001 - (⟨1, 0, 5⟩ : SchedState).mode_start_time ∧
    loopStep 1 30001 ⟨1, 0, 5⟩ = ⟨1, 30001, 6⟩ ∧
    (30000 : ℤ) - ((⟨0, 0, 0⟩ : JsSchedState).startTime : ℤ) ≤ 30000 ∧
    jsMainStep 0 30000 30000 ⟨0, 0, 0⟩ = ⟨0, 0, 1⟩ := by
  have h := claim8_mode_switch_threshold
  have h1 := (h.1 1 30001 ⟨1, 0, 5⟩ (by decide) (by decide)).1 (by decide)
  have h2 := (h.2 0 30000 30000 ⟨0, 0, 0⟩).2 (by decide)
  exact ⟨by decide, by decide, by decide, h1, by decide, h2⟩

/-- C9: a `leds_setColor` call with an index outside `[0, LEDCOUNT - 1]`
is silently ignored: it is a total function (no error is signalled) and
returns the buffer with every pixel unchanged. -/
theorem claim9_setcolor_out_of_range_ignored (index : ℤ) (r g b : ℕ) (buf : Buf)
    (h : index < 0 ∨ (LEDCOUNT : ℤ) ≤ index) :
    leds_setColor index r g b buf = buf := by
  unfold leds_setColor
  rw [if_pos h]

/-- C9 witness: writing index 100 (one past the last pixel) leaves an
all-black buffer unchanged. -/
theorem claim9_witness :
    ((100 : ℤ) < 0 ∨ (LEDCOUNT : ℤ) ≤ 100) ∧
    leds_setColor 100 7 8 9 (fun _ => (0, 0, 0)) = (fun _ => (0, 0, 0)) := by
  have h : (100 : ℤ) < 0 ∨ (LEDCOUNT : ℤ) ≤ 100 := Or.inr (by norm_num [LEDCOUNT])
  exact ⟨h, claim9_setcolor_out_of_range_ignored 100 7 8 9 (fun _ => (0, 0, 0)) h⟩

/-- C10 counterexample: the claim states that the JS and C++ `gradient`
implementations are extensionally equal.  They are not: at the input
`(0.3, 0.3, 0.3, 0, 2, 3, 0, 1, 1, 0)`, with a sine function that — like
the true sine — vanishes at 0 (the only point where the red channel
samples it), the red channels are 255 (JS) versus 127 (C++). -/
theorem claim10_counterexample :
    gradientJs (fun _ => 0) 0.3 0.3 0.3 0 2 3 0 1 1 0 ≠
      gradientCpp (fun _ => 0) 0.3 0.3 0.3 0 2 3 0 1 1 0 := by
  intro h
  have hr := congrArg RGB.r h
  rw [show gradientJs (fun _ => 0) 0.3 0.3 0.3 0 2 3 0 1 1 0 = ⟨255, 255, 255⟩ by
        norm_num [gradientJs, jsChannel],
      show gradientCpp (fun _ => 0) 0.3 0.3 0.3 0 2 3 0 1 1 0 = ⟨127, 127, 0⟩ by
        norm_num [gradientCpp, cppChannel, constrain, truncInt]] at hr
  exact absurd hr (by decide)

/-- C10 amended: the two implementations are not extensionally equivalent.
With the sine abstraction in its range `[-1, 1]` and multipliers in
{0, 1}, the JS `gradient` is constantly `(255, 255, 255)` while the C++
`gradient` computes the spec formula `clamp(floor(...))` per channel; they
agree exactly where every channel of the formula evaluates to 255. -/
theorem claim10_gradients_not_equivalent_amended (s : ℚ → ℚ)
    (f1 f2 f3 ph1 ph2 ph3 i dr dg db : ℚ)
    (hs : ∀ x, -1 ≤ s x ∧ s x ≤ 1)
    (hdr : dr = 0 ∨ dr = 1) (hdg : dg = 0 ∨ dg = 1) (hdb : db = 0 ∨ db = 1) :
    gradientJs s f1 f2 f3 ph1 ph2 ph3 i dr dg db = ⟨255, 255, 255⟩ ∧
    gradientCpp s f1 f2 f3 ph1 ph2 ph3 i dr dg db =
      gradientSpec s f1 f2 f3 ph1 ph2 ph3 i dr dg db := by
  constructor
  · unfold gradientJs
    rw [jsChannel_eq_255 _ _ (hs _).2 (hs _).1 hdr,
        jsChannel_eq_255 _ _ (hs _).2 (hs _).1 hdg,
        jsChannel_eq_255 _ _ (hs _).2 (hs _).1 hdb]
  · unfold gradientCpp gradientSpec
    rw [cppChannel_eq_specChannel, cppChannel_eq_specChannel, cppChannel_eq_specChannel]

/-- C10 witness: the amended statement at the zero sine function and the
color-cycle parameters. -/
theorem claim10_witness :
    (∀ x : ℚ, -1 ≤ (fun _ : ℚ => (0 : ℚ)) x ∧ (fun _ : ℚ => (0 : ℚ)) x ≤ 1) ∧
    gradientJs (fun _ => 0) 0.3 0.3 0.3 0 2 3 0 1 1 0 = ⟨255, 255, 255⟩ := by
  have hs : ∀ x : ℚ, -1 ≤ (fun _ : ℚ => (0 : ℚ)) x ∧ (fun _ : ℚ => (0 : ℚ)) x ≤ 1 :=
    fun x => by norm_num
  exact ⟨hs, (claim10_gradients_not_equivalent_amended (fun _ => 0) 0.3 0.3 0.3 0 2 3 0 1 1 0
    hs (Or.inr rfl) (Or.inr rfl) (Or.inl rfl)).1⟩

end XmasTree
